import Mathlib

/-!
Shallow embedding of the decision-synthesis core of the forex-strategist
repository, translated from
`backend/app/services/strategy_engine.py` (class `StrategyEngine`) and
`backend/app/services/forex_api.py` (method
`ForexAPIService.calculate_moving_averages`).

Modelling conventions:
* Python floats are modelled as rationals (`ℚ`); all the constants of the
  source (0.3, 0.2, 0.1, 0.6, 0.8, 0.001, ...) are exact decimals.
* A Python dict field that may be missing (`dict.get`) is an `Option`;
  Python truthiness of an optional float (`if ma_5 and ma_20:`) treats both
  a missing value and the value 0.0 as false, captured by `truthy`.
* `trend_direction` strings `'upward' / 'downward' / 'neutral' / 'unknown'`
  become the enumeration `Trend`; `technical_data.get('trend_direction',
  'neutral')` becomes `Option.getD · Trend.neutral`.
* The engine's mutable `self.weights` / thresholds are an explicit
  `StrategyConfig` value threaded through the functions; the mutating
  update methods become state-passing functions returning the new config
  together with an optional validation error (the `ValueError` raise).
* The date-keyed time-series dict handed to `calculate_moving_averages` is
  modelled as the chronologically ordered list of close prices (the source
  sorts the rows by date before computing anything, so only that ordered
  close sequence matters); the `return {}` taken on an empty input dict is
  modelled as `Option.none`.
-/

/-- Lower-case a string character by character, as `str.lower()` does for
the ASCII keyword matching of the event scorer. -/
def lowerStr (s : String) : String := String.mk (s.data.map Char.toLower)

/-- `listPre a b` : the list `a` is an initial segment of `b`. -/
def listPre : List Char → List Char → Bool
  | [], _ => true
  | _ :: _, [] => false
  | a :: as, b :: bs => a == b && listPre as bs

/-- `listInf needle hay` : `needle` occurs contiguously inside `hay`. -/
def listInf (needle : List Char) : List Char → Bool
  | [] => needle.isEmpty
  | b :: bs => listPre needle (b :: bs) || listInf needle bs

/-- Python's substring test `needle in hay`. -/
def strContains (hay needle : String) : Bool := listInf needle.toList hay.toList

/-- `any(keyword in event_lower for keyword in kws)` with
`event_lower = event.lower()`. -/
def anyKeyword (event : String) (kws : List String) : Bool :=
  kws.any (fun k => strContains (lowerStr event) k)

/-- `max(0.0, min(1.0, x))`. -/
def clampUnit (x : ℚ) : ℚ := max 0 (min 1 x)

/-- `max(-1.0, min(1.0, x))`. -/
def clampSym (x : ℚ) : ℚ := max (-1) (min 1 x)

/-- Python truthiness of an optional float: `None` and `0.0` are falsy. -/
def truthy : Option ℚ → Bool
  | none => false
  | some x => x ≠ 0

/-- `RecommendationType` enum of `backend/app/models/models.py`. -/
inductive RecommendationType
  | BUY
  | HOLD
  | SELL
deriving DecidableEq

/-- The string payload of the enum member (`RecommendationType.BUY = "buy"`
and so on). -/
def RecommendationType.value : RecommendationType → String
  | .BUY => "buy"
  | .HOLD => "hold"
  | .SELL => "sell"

/-- Upper-case a string, as `.upper()` does on the ASCII enum payloads. -/
def upperStr (s : String) : String := String.mk (s.data.map Char.toUpper)

/-- The four `trend_direction` strings occurring in the source. -/
inductive Trend
  | upward
  | downward
  | neutral
  | unknown
deriving DecidableEq

/-- `trend.title()` applied to the four one-word trend strings. -/
def Trend.title : Trend → String
  | .upward => "Upward"
  | .downward => "Downward"
  | .neutral => "Neutral"
  | .unknown => "Unknown"

/-- The `technical_data` dict consumed by `StrategyEngine`: the keys read by
`_calculate_technical_score` and `_generate_justification`.  Optional keys
are `Option`s (`dict.get` with no entry). -/
structure TechnicalData where
  current_rate : ℚ
  moving_average_5 : Option ℚ
  moving_average_20 : Option ℚ
  moving_average_50 : Option ℚ
  trend_direction : Option Trend
deriving DecidableEq

/-- The `sentiment_data` dict consumed by `StrategyEngine`: the keys read by
the sentiment scorer, the event scorer and the justification renderer. -/
structure SentimentData where
  score : ℚ
  news_count : ℤ
  economic_events : List String
  geopolitical_events : List String
deriving DecidableEq

/-- The engine's mutable state: `self.weights` (keys `technical`,
`sentiment`, `events`) plus `self.buy_threshold` / `self.sell_threshold`. -/
structure StrategyConfig where
  technical : ℚ
  sentiment : ℚ
  events : ℚ
  buy_threshold : ℚ
  sell_threshold : ℚ
deriving DecidableEq

/-- The state installed by `StrategyEngine.__init__`: weights 0.4/0.3/0.3,
thresholds 0.6 and -0.6. -/
def initConfig : StrategyConfig :=
  { technical := 2/5
    sentiment := 3/10
    events := 3/10
    buy_threshold := 3/5
    sell_threshold := -(3/5) }

/-- The accumulation loop of `_calculate_technical_score` before the
normalisation: returns the raw `score` accumulator together with the
`factors` counter.  Mirrors the source line by line: the price-vs-MA20 and
MA5-vs-MA20 signals are gated by `if ma_5 and ma_20 and current_rate > 0:`
(each bumping `factors`), the MA20-vs-MA50 signal by `if ma_20 and ma_50:`,
and the trend signal adds ±0.3 for upward/downward but bumps `factors`
unconditionally. -/
def technicalSignals (t : TechnicalData) : ℚ × ℕ :=
  let current_rate := t.current_rate
  let ma_5 := t.moving_average_5
  let ma_20 := t.moving_average_20
  let ma_50 := t.moving_average_50
  let trend := t.trend_direction.getD Trend.neutral
  let sf1 : ℚ × ℕ :=
    if truthy ma_5 && truthy ma_20 && decide (current_rate > 0) then
      let m5 := ma_5.getD 0
      let m20 := ma_20.getD 0
      let sa : ℚ :=
        if current_rate > m20 then 3/10 else if current_rate < m20 then -(3/10) else 0
      let sb : ℚ := if m5 > m20 then sa + 1/5 else if m5 < m20 then sa - 1/5 else sa
      (sb, 2)
    else (0, 0)
  let sf2 : ℚ × ℕ :=
    if truthy ma_20 && truthy ma_50 then
      let m20 := ma_20.getD 0
      let m50 := ma_50.getD 0
      (if m20 > m50 then sf1.1 + 1/5 else if m20 < m50 then sf1.1 - 1/5 else sf1.1,
       sf1.2 + 1)
    else sf1
  let s3 : ℚ :=
    if trend = Trend.upward then sf2.1 + 3/10
    else if trend = Trend.downward then sf2.1 - 3/10
    else sf2.1
  (s3, sf2.2 + 1)

/-- `StrategyEngine._calculate_technical_score`: normalise the accumulator
by the factor count (guarded by `if factors > 0:`) and clamp to [-1, 1]. -/
def calculate_technical_score (t : TechnicalData) : ℚ :=
  let sf := technicalSignals t
  let score := if sf.2 > 0 then sf.1 / (sf.2 : ℚ) else sf.1
  clampSym score

/-- `StrategyEngine._calculate_sentiment_score`: amplify by 1.2 when
`news_count > 10`, dampen by 0.5 when `news_count < 3`, clamp to [-1, 1]. -/
def calculate_sentiment_score (sd : SentimentData) : ℚ :=
  let sentiment_score := sd.score
  let adjusted :=
    if sd.news_count > 10 then sentiment_score * (6/5)
    else if sd.news_count < 3 then sentiment_score * (1/2)
    else sentiment_score
  clampSym adjusted

/-- Positive economic-event keywords of `_calculate_event_score`. -/
def econKwPos : List String := ["rate cut", "stimulus", "growth"]

/-- Negative economic-event keywords of `_calculate_event_score`. -/
def econKwNeg : List String := ["rate hike", "inflation", "recession"]

/-- Negative geopolitical-event keywords of `_calculate_event_score`. -/
def geoKwNeg : List String := ["war", "conflict", "sanctions"]

/-- Positive geopolitical-event keywords of `_calculate_event_score`. -/
def geoKwPos : List String := ["deal", "agreement", "stability"]

/-- `StrategyEngine._calculate_event_score`: each economic event
contributes +0.2 / -0.2 on first keyword-set match, each geopolitical event
-0.3 / +0.2; result clamped to [-1, 1]. -/
def calculate_event_score (sd : SentimentData) : ℚ :=
  let s1 := sd.economic_events.foldl
    (fun acc event =>
      if anyKeyword event econKwPos then acc + 1/5
      else if anyKeyword event econKwNeg then acc - 1/5
      else acc) 0
  let s2 := sd.geopolitical_events.foldl
    (fun acc event =>
      if anyKeyword event geoKwNeg then acc - 3/10
      else if anyKeyword event geoKwPos then acc + 1/5
      else acc) s1
  clampSym s2

/-- `StrategyEngine._determine_recommendation`: `>= buy_threshold` gives
BUY, else `<= sell_threshold` gives SELL, else HOLD. -/
def determine_recommendation (cfg : StrategyConfig) (overall_score : ℚ) :
    RecommendationType :=
  if overall_score ≥ cfg.buy_threshold then .BUY
  else if overall_score ≤ cfg.sell_threshold then .SELL
  else .HOLD

/-- `StrategyEngine._calculate_confidence`.  The three `sum(1 for score in
scores if ...)` counters become `countP` over the three-element list; the
base-confidence case split and the magnitude adjustment follow the source,
ending in `max(0.0, min(1.0, confidence))`. -/
def calculate_confidence (technical_score sentiment_score event_score : ℚ) : ℚ :=
  let scores := [technical_score, sentiment_score, event_score]
  let positive_scores := scores.countP (fun score => decide (score > 1/10))
  let negative_scores := scores.countP (fun score => decide (score < -(1/10)))
  let neutral_scores := scores.countP
    (fun score => decide (-(1/10) ≤ score ∧ score ≤ 1/10))
  let confidence : ℚ :=
    if positive_scores ≥ 2 ∧ negative_scores = 0 then
      4/5 + ((positive_scores : ℚ) - 2) * (1/10)
    else if negative_scores ≥ 2 ∧ positive_scores = 0 then
      4/5 + ((negative_scores : ℚ) - 2) * (1/10)
    else if neutral_scores ≥ 2 then 3/5
    else 1/2
  let avg_magnitude :=
    (|technical_score| + |sentiment_score| + |event_score|) / 3
  clampUnit (confidence * (1/2 + avg_magnitude * (1/2)))

/-- Left-pad a digit string with zeros to the requested width. -/
def padZeros (width : ℕ) (s : String) : String :=
  String.mk (List.replicate (width - s.length) '0') ++ s

/-- Fixed-point decimal rendering, modelling the f-string format specifiers
`:.3f` / `:.4f` of `_generate_justification` (nearest decimal with the
scaled value rounded to the nearest integer). -/
def fmtFixed (prec : ℕ) (x : ℚ) : String :=
  let scaled : ℤ := round (x * (10 : ℚ) ^ prec)
  let sign := if scaled < 0 then "-" else ""
  let n := scaled.natAbs
  sign ++ toString (n / 10 ^ prec) ++ "." ++ padZeros prec (toString (n % 10 ^ prec))

/-- The `**Final Reasoning:**` tail of `_generate_justification` (the code
after the `# Final Reasoning` comment): branches on the recommendation
label, and inside the BUY branch appends one more line when
`sentiment_score > 0` (inside SELL, when `sentiment_score < 0`). -/
def finalReasoning (recommendation : RecommendationType) (sentiment_score : ℚ) :
    String :=
  let j := "**Final Reasoning:**\n"
  if recommendation = .BUY then
    let j := j ++ "- Multiple factors align to suggest upward price movement\n"
    let j := j ++ "- Technical indicators show bullish signals\n"
    if sentiment_score > 0 then j ++ "- Positive market sentiment supports buying\n"
    else j
  else if recommendation = .SELL then
    let j := j ++ "- Multiple factors align to suggest downward price movement\n"
    let j := j ++ "- Technical indicators show bearish signals\n"
    if sentiment_score < 0 then j ++ "- Negative market sentiment supports selling\n"
    else j
  else
    j ++ "- Mixed signals suggest maintaining current position\n"
      ++ "- Wait for clearer market direction before taking action\n"

/-- `StrategyEngine._generate_justification`, section by section. -/
def generate_justification (currency_pair : String)
    (recommendation : RecommendationType)
    (technical_data : TechnicalData) (sentiment_data : SentimentData)
    (technical_score sentiment_score event_score overall_score : ℚ) : String :=
  let j := "**Recommendation: " ++ upperStr recommendation.value ++ "** for "
    ++ currency_pair ++ "\n\n"
  let j := j ++ "**Overall Score:** " ++ fmtFixed 3 overall_score ++ "\n\n"
  let j := j ++ "**Technical Analysis:**\n"
  let current_rate := technical_data.current_rate
  let ma_20 := technical_data.moving_average_20
  let trend := technical_data.trend_direction.getD Trend.neutral
  let j := j ++ "- Current Rate: " ++ fmtFixed 4 current_rate ++ "\n"
  let j :=
    if truthy ma_20 then
      let m20 := ma_20.getD 0
      let j := j ++ "- 20-Day Moving Average: " ++ fmtFixed 4 m20 ++ "\n"
      if current_rate > m20 then
        j ++ "- Price is above MA20, indicating bullish momentum\n"
      else
        j ++ "- Price is below MA20, indicating bearish momentum\n"
    else j
  let j := j ++ "- Trend Direction: " ++ trend.title ++ "\n"
  let j := j ++ "- Technical Score: " ++ fmtFixed 3 technical_score ++ "\n\n"
  let j := j ++ "**Sentiment Analysis:**\n"
  let sentiment_score_raw := sentiment_data.score
  let news_count := sentiment_data.news_count
  let j := j ++ "- News Articles Analyzed: " ++ toString news_count ++ "\n"
  let j := j ++ "- Sentiment Score: " ++ fmtFixed 3 sentiment_score_raw ++ "\n"
  let j :=
    if sentiment_score_raw > 1/10 then j ++ "- Market sentiment is positive\n"
    else if sentiment_score_raw < -(1/10) then j ++ "- Market sentiment is negative\n"
    else j ++ "- Market sentiment is neutral\n"
  let j := j ++ "- Weighted Sentiment Score: " ++ fmtFixed 3 sentiment_score ++ "\n\n"
  let j := j ++ "**Event Analysis:**\n"
  let economic_events := sentiment_data.economic_events
  let geopolitical_events := sentiment_data.geopolitical_events
  let j :=
    if economic_events.isEmpty then j
    else (economic_events.take 2).foldl (fun a event => a ++ "  • " ++ event ++ "\n")
      (j ++ "- Economic Events: " ++ toString economic_events.length ++ " detected\n")
  let j :=
    if geopolitical_events.isEmpty then j
    else (geopolitical_events.take 2).foldl (fun a event => a ++ "  • " ++ event ++ "\n")
      (j ++ "- Geopolitical Events: " ++ toString geopolitical_events.length
        ++ " detected\n")
  let j := j ++ "- Event Impact Score: " ++ fmtFixed 3 event_score ++ "\n\n"
  j ++ finalReasoning recommendation sentiment_score

/-- The dict returned by `StrategyEngine.generate_recommendation`. -/
structure RecommendationResult where
  recommendation : RecommendationType
  confidence_score : ℚ
  overall_score : ℚ
  technical_score : ℚ
  sentiment_score : ℚ
  event_score : ℚ
  justification : String
deriving DecidableEq

/-- `StrategyEngine.generate_recommendation`, with the engine state passed
explicitly.  The `current_rate` parameter is accepted but, as in the
source, never read (the justification reads the rate out of
`technical_data`). -/
def generate_recommendation (cfg : StrategyConfig) (currency_pair : String)
    (technical_data : TechnicalData) (sentiment_data : SentimentData)
    (current_rate : ℚ) : RecommendationResult :=
  let _ := current_rate
  let technical_score := calculate_technical_score technical_data
  let sentiment_score := calculate_sentiment_score sentiment_data
  let event_score := calculate_event_score sentiment_data
  let overall_score := technical_score * cfg.technical
    + sentiment_score * cfg.sentiment + event_score * cfg.events
  let recommendation := determine_recommendation cfg overall_score
  let confidence := calculate_confidence technical_score sentiment_score event_score
  let justification := generate_justification currency_pair recommendation
    technical_data sentiment_data technical_score sentiment_score event_score
    overall_score
  { recommendation := recommendation
    confidence_score := confidence
    overall_score := overall_score
    technical_score := technical_score
    sentiment_score := sentiment_score
    event_score := event_score
    justification := justification }

/-- The `ValueError`s raised by the two configuration-update methods. -/
inductive ValidationErr
  | weightSum
  | thresholdOrder
deriving DecidableEq

/-- `StrategyEngine.update_strategy_weights`: reject (raising, modelled as
`some ValidationErr.weightSum`, with the state unchanged) when
`abs(total - 1.0) > 0.001`; otherwise install the three weights. -/
def update_strategy_weights (cfg : StrategyConfig)
    (technical_weight sentiment_weight event_weight : ℚ) :
    StrategyConfig × Option ValidationErr :=
  let total := technical_weight + sentiment_weight + event_weight
  if |total - 1| > 1/1000 then (cfg, some .weightSum)
  else
    ({ cfg with
        technical := technical_weight
        sentiment := sentiment_weight
        events := event_weight }, none)

/-- `StrategyEngine.update_thresholds`: reject when
`buy_threshold <= sell_threshold`; otherwise install both thresholds. -/
def update_thresholds (cfg : StrategyConfig)
    (buy_threshold sell_threshold : ℚ) :
    StrategyConfig × Option ValidationErr :=
  if buy_threshold ≤ sell_threshold then (cfg, some .thresholdOrder)
  else ({ cfg with
          buy_threshold := buy_threshold
          sell_threshold := sell_threshold }, none)

/-- The dict built by `ForexAPIService.calculate_moving_averages` on a
non-empty input (`moving_average_*` is `None` when the pandas rolling mean
at the last row is NaN, i.e. when fewer closes than the window exist). -/
structure MovingAverages where
  moving_average_5 : Option ℚ
  moving_average_20 : Option ℚ
  moving_average_50 : Option ℚ
  trend_direction : Trend
  current_price : ℚ
deriving DecidableEq

/-- The trailing-window mean `df['close'].rolling(window=w).mean()` read at
the last row: defined only when at least `w` closes exist. -/
def rollingMeanLast (w : ℕ) (closes : List ℚ) : Option ℚ :=
  if closes.length < w then none
  else some ((closes.drop (closes.length - w)).sum / (w : ℚ))

/-- `ForexAPIService.calculate_moving_averages` over the chronologically
ordered close prices.  `Option.none` models the `return {}` taken on an
empty input dict; the trend starts `"neutral"` and is reclassified only
when at least 20 rows exist, comparing the last close against MA20 and the
two previous closes against each other. -/
def calculate_moving_averages (closes : List ℚ) : Option MovingAverages :=
  if closes.isEmpty then none
  else
    let latestClose := closes.getLastD 0
    let ma20 := rollingMeanLast 20 closes
    let trend : Trend :=
      if closes.length ≥ 20 then
        let m20 := ma20.getD 0
        let prev1 := closes.getD (closes.length - 2) 0
        let prev2 := closes.getD (closes.length - 3) 0
        if latestClose > m20 ∧ prev1 > prev2 then Trend.upward
        else if latestClose < m20 ∧ prev1 < prev2 then Trend.downward
        else Trend.neutral
      else Trend.neutral
    some
      { moving_average_5 := rollingMeanLast 5 closes
        moving_average_20 := ma20
        moving_average_50 := rollingMeanLast 50 closes
        trend_direction := trend
        current_price := latestClose }

/-- The `technical_data` dict assembled by
`ForexAPIService.get_technical_analysis` on the success path: the spot rate
from the exchange-rate quote plus the fields of
`calculate_moving_averages`. -/
def technicalDataOfMA (ma : MovingAverages) (rate : ℚ) : TechnicalData :=
  { current_rate := rate
    moving_average_5 := ma.moving_average_5
    moving_average_20 := ma.moving_average_20
    moving_average_50 := ma.moving_average_50
    trend_direction := some ma.trend_direction }

/-! ## Shared lemmas -/

theorem clampSym_lower (x : ℚ) : -1 ≤ clampSym x := le_max_left _ _

theorem clampSym_upper (x : ℚ) : clampSym x ≤ 1 :=
  max_le (by norm_num) (min_le_left _ _)

theorem clampUnit_lower (x : ℚ) : 0 ≤ clampUnit x := le_max_left _ _

theorem clampUnit_upper (x : ℚ) : clampUnit x ≤ 1 :=
  max_le (by norm_num) (min_le_left _ _)

theorem clampUnit_eq_self {x : ℚ} (h0 : 0 ≤ x) (h1 : x ≤ 1) : clampUnit x = x := by
  unfold clampUnit
  rw [min_eq_right h1, max_eq_right h0]

/-! ## Claims -/

/-- **C1.** Classification is a three-way inclusive threshold rule: for any
configuration with `sell_threshold < buy_threshold` the recommendation is
BUY iff `overall_score ≥ buy_threshold`, SELL iff
`overall_score ≤ sell_threshold`, and HOLD iff it lies strictly between;
with the default thresholds, 0.6 classifies as BUY, -0.6 as SELL and
0.599999 as HOLD. -/
theorem claim_C1 :
    (∀ (cfg : StrategyConfig) (x : ℚ), cfg.sell_threshold < cfg.buy_threshold →
      (determine_recommendation cfg x = .BUY ↔ cfg.buy_threshold ≤ x) ∧
      (determine_recommendation cfg x = .SELL ↔ x ≤ cfg.sell_threshold) ∧
      (determine_recommendation cfg x = .HOLD ↔
        cfg.sell_threshold < x ∧ x < cfg.buy_threshold)) ∧
    determine_recommendation initConfig (3/5) = .BUY ∧
    determine_recommendation initConfig (-(3/5)) = .SELL ∧
    determine_recommendation initConfig (599999/1000000) = .HOLD := by
  refine ⟨?_, by norm_num [determine_recommendation, initConfig],
    by norm_num [determine_recommendation, initConfig],
    by norm_num [determine_recommendation, initConfig]⟩
  intro cfg x hlt
  unfold determine_recommendation
  split_ifs with h1 h2
  · refine ⟨⟨fun _ => h1, fun _ => rfl⟩, ?_, ?_⟩
    · constructor
      · intro h
        exact h.elim
      · intro h
        exfalso
        linarith
    · constructor
      · intro h
        exact h.elim
      · rintro ⟨-, h5⟩
        exfalso
        linarith
  · refine ⟨?_, ⟨fun _ => h2, fun _ => rfl⟩, ?_⟩
    · constructor
      · intro h
        exact h.elim
      · intro h
        exact absurd h h1
    · constructor
      · intro h
        exact h.elim
      · rintro ⟨h4, -⟩
        exfalso
        linarith
  · refine ⟨?_, ?_, ⟨fun _ => ⟨not_le.mp h2, not_le.mp h1⟩, fun _ => rfl⟩⟩
    · constructor
      · intro h
        exact h.elim
      · intro h
        exact absurd h h1
    · constructor
      · intro h
        exact h.elim
      · intro h
        exact absurd h h2

/-- Witness for C1: the hypothesis `sell_threshold < buy_threshold` holds
for the initial configuration, and the HOLD characterisation applies at
overall score 0. -/
theorem claim_C1_witness :
    initConfig.sell_threshold < initConfig.buy_threshold ∧
    (determine_recommendation initConfig 0 = .HOLD ↔
      initConfig.sell_threshold < 0 ∧ (0 : ℚ) < initConfig.buy_threshold) :=
  ⟨by norm_num [initConfig], (claim_C1.1 initConfig 0 (by norm_num [initConfig])).2.2⟩

theorem calculate_technical_score_bounds (t : TechnicalData) :
    -1 ≤ calculate_technical_score t ∧ calculate_technical_score t ≤ 1 := by
  unfold calculate_technical_score
  exact ⟨clampSym_lower _, clampSym_upper _⟩

theorem calculate_sentiment_score_bounds (sd : SentimentData) :
    -1 ≤ calculate_sentiment_score sd ∧ calculate_sentiment_score sd ≤ 1 := by
  unfold calculate_sentiment_score
  exact ⟨clampSym_lower _, clampSym_upper _⟩

theorem calculate_event_score_bounds (sd : SentimentData) :
    -1 ≤ calculate_event_score sd ∧ calculate_event_score sd ≤ 1 := by
  unfold calculate_event_score
  exact ⟨clampSym_lower _, clampSym_upper _⟩

theorem calculate_confidence_bounds (t s e : ℚ) :
    0 ≤ calculate_confidence t s e ∧ calculate_confidence t s e ≤ 1 := by
  unfold calculate_confidence
  exact ⟨clampUnit_lower _, clampUnit_upper _⟩

/-- The record returned by `generate_recommendation`, field by field. -/
theorem generate_recommendation_fields (cfg : StrategyConfig) (pair : String)
    (td : TechnicalData) (sd : SentimentData) (rate : ℚ) :
    generate_recommendation cfg pair td sd rate =
      { recommendation := determine_recommendation cfg
          (calculate_technical_score td * cfg.technical
            + calculate_sentiment_score sd * cfg.sentiment
            + calculate_event_score sd * cfg.events)
        confidence_score := calculate_confidence (calculate_technical_score td)
          (calculate_sentiment_score sd) (calculate_event_score sd)
        overall_score := calculate_technical_score td * cfg.technical
          + calculate_sentiment_score sd * cfg.sentiment
          + calculate_event_score sd * cfg.events
        technical_score := calculate_technical_score td
        sentiment_score := calculate_sentiment_score sd
        event_score := calculate_event_score sd
        justification := generate_justification pair
          (determine_recommendation cfg
            (calculate_technical_score td * cfg.technical
              + calculate_sentiment_score sd * cfg.sentiment
              + calculate_event_score sd * cfg.events))
          td sd (calculate_technical_score td) (calculate_sentiment_score sd)
          (calculate_event_score sd)
          (calculate_technical_score td * cfg.technical
            + calculate_sentiment_score sd * cfg.sentiment
            + calculate_event_score sd * cfg.events) } := rfl

theorem weighted_sum_bounds {t s e wt ws we : ℚ}
    (ht0 : -1 ≤ t) (ht1 : t ≤ 1) (hs0 : -1 ≤ s) (hs1 : s ≤ 1)
    (he0 : -1 ≤ e) (he1 : e ≤ 1)
    (hwt : 0 ≤ wt) (hws : 0 ≤ ws) (hwe : 0 ≤ we)
    (hsum : wt + ws + we ≤ 1) :
    -1 ≤ t * wt + s * ws + e * we ∧ t * wt + s * ws + e * we ≤ 1 := by
  have h1 : t * wt ≤ 1 * wt := mul_le_mul_of_nonneg_right ht1 hwt
  have h2 : (-1) * wt ≤ t * wt := mul_le_mul_of_nonneg_right ht0 hwt
  have h3 : s * ws ≤ 1 * ws := mul_le_mul_of_nonneg_right hs1 hws
  have h4 : (-1) * ws ≤ s * ws := mul_le_mul_of_nonneg_right hs0 hws
  have h5 : e * we ≤ 1 * we := mul_le_mul_of_nonneg_right he1 hwe
  have h6 : (-1) * we ≤ e * we := mul_le_mul_of_nonneg_right he0 hwe
  constructor <;> nlinarith

/-- **C2 (amended).** Every factor score returned by
`generate_recommendation` lies in [-1, 1] and the confidence in [0, 1],
for every input and configuration; the unclamped `overall_score` lies in
[-1, 1] provided the configured weights are each nonnegative and sum to at
most 1.  (The validated weight update only checks that the sum is within
0.001 of 1.0, so configurations violating that proviso are reachable and
can push `overall_score` outside [-1, 1]; see the counterexample.) -/
theorem claim_C2 (cfg : StrategyConfig) (pair : String) (td : TechnicalData)
    (sd : SentimentData) (rate : ℚ) :
    (-1 ≤ (generate_recommendation cfg pair td sd rate).technical_score ∧
      (generate_recommendation cfg pair td sd rate).technical_score ≤ 1) ∧
    (-1 ≤ (generate_recommendation cfg pair td sd rate).sentiment_score ∧
      (generate_recommendation cfg pair td sd rate).sentiment_score ≤ 1) ∧
    (-1 ≤ (generate_recommendation cfg pair td sd rate).event_score ∧
      (generate_recommendation cfg pair td sd rate).event_score ≤ 1) ∧
    (0 ≤ (generate_recommendation cfg pair td sd rate).confidence_score ∧
      (generate_recommendation cfg pair td sd rate).confidence_score ≤ 1) ∧
    (0 ≤ cfg.technical → 0 ≤ cfg.sentiment → 0 ≤ cfg.events →
      cfg.technical + cfg.sentiment + cfg.events ≤ 1 →
      -1 ≤ (generate_recommendation cfg pair td sd rate).overall_score ∧
        (generate_recommendation cfg pair td sd rate).overall_score ≤ 1) := by
  rw [generate_recommendation_fields]
  refine ⟨calculate_technical_score_bounds td, calculate_sentiment_score_bounds sd,
    calculate_event_score_bounds sd, calculate_confidence_bounds _ _ _,
    fun hwt hws hwe hsum => ?_⟩
  obtain ⟨ht0, ht1⟩ := calculate_technical_score_bounds td
  obtain ⟨hs0, hs1⟩ := calculate_sentiment_score_bounds sd
  obtain ⟨he0, he1⟩ := calculate_event_score_bounds sd
  exact weighted_sum_bounds ht0 ht1 hs0 hs1 he0 he1 hwt hws hwe hsum

/-- Witness for C2: the weight provisos hold for the initial configuration,
and the overall-score bound applies there to a concrete snapshot. -/
theorem claim_C2_witness :
    (0 : ℚ) ≤ initConfig.technical ∧ (0 : ℚ) ≤ initConfig.sentiment ∧
    (0 : ℚ) ≤ initConfig.events ∧
    initConfig.technical + initConfig.sentiment + initConfig.events ≤ 1 ∧
    (-1 ≤ (generate_recommendation initConfig "EUR/USD"
        ⟨0, none, none, none, none⟩ ⟨0, 0, [], []⟩ 0).overall_score ∧
      (generate_recommendation initConfig "EUR/USD"
        ⟨0, none, none, none, none⟩ ⟨0, 0, [], []⟩ 0).overall_score ≤ 1) :=
  ⟨by norm_num [initConfig], by norm_num [initConfig], by norm_num [initConfig],
   by norm_num [initConfig],
   (claim_C2 initConfig "EUR/USD" ⟨0, none, none, none, none⟩ ⟨0, 0, [], []⟩ 0).2.2.2.2
     (by norm_num [initConfig]) (by norm_num [initConfig]) (by norm_num [initConfig])
     (by norm_num [initConfig])⟩

/-- Counterexample to C2 as stated: the validated weight update accepts the
weights (2, -0.5, -0.5) — it checks only the sum — and under that reachable
configuration a concrete snapshot (trend upward, raw sentiment -1 over 5
articles, five "war" geopolitical events) yields `overall_score = 1.6`,
outside [-1, 1]. -/
theorem claim_C2_counterexample :
    (update_strategy_weights initConfig 2 (-(1/2)) (-(1/2))).2 = none ∧
    (generate_recommendation (update_strategy_weights initConfig 2 (-(1/2)) (-(1/2))).1
      "EUR/USD" ⟨1, none, none, none, some Trend.upward⟩
      ⟨-1, 5, [], ["war", "war", "war", "war", "war"]⟩ 1).overall_score = 8/5 ∧
    ¬ ((8 : ℚ)/5 ≤ 1) := by
  have hcfg : update_strategy_weights initConfig 2 (-(1/2)) (-(1/2)) =
      ({ technical := 2, sentiment := -(1/2), events := -(1/2),
         buy_threshold := 3/5, sell_threshold := -(3/5) }, none) := by
    norm_num [update_strategy_weights, initConfig]
  have ht : calculate_technical_score ⟨1, none, none, none, some Trend.upward⟩ = 3/10 := by
    norm_num [calculate_technical_score, technicalSignals, truthy, clampSym]
  have hs : calculate_sentiment_score
      ⟨-1, 5, [], ["war", "war", "war", "war", "war"]⟩ = -1 := by
    norm_num [calculate_sentiment_score, clampSym]
  have hw : anyKeyword "war" geoKwNeg = true := by decide
  have he : calculate_event_score
      ⟨-1, 5, [], ["war", "war", "war", "war", "war"]⟩ = -1 := by
    norm_num [calculate_event_score, hw, clampSym]
  refine ⟨by rw [hcfg], ?_, by norm_num⟩
  rw [hcfg, generate_recommendation_fields]
  norm_num [ht, hs, he]

/-- **C3 (amended).** For a price history of exactly 4 chronological
closes, the calculator reports `moving_average_5` (indeed all three moving
averages) as absent and `trend_direction` as *neutral* (not unknown: the
unknown label only arises on the fetch-failure path of
`get_technical_analysis`), and the technical score of the resulting
snapshot is 0.0 with exactly **one** signal in the normalisation count
(the unconditionally counted trend-direction signal), for any spot rate. -/
theorem claim_C3 (closes : List ℚ) (rate : ℚ) (h4 : closes.length = 4) :
    ∃ ma : MovingAverages,
      calculate_moving_averages closes = some ma ∧
      ma.moving_average_5 = none ∧
      ma.trend_direction = Trend.neutral ∧
      technicalSignals (technicalDataOfMA ma rate) = (0, 1) ∧
      calculate_technical_score (technicalDataOfMA ma rate) = 0 := by
  have hne : closes.isEmpty = false := by
    cases closes with
    | nil => simp at h4
    | cons a t => simp
  have h5 : rollingMeanLast 5 closes = none := by
    simp only [rollingMeanLast, h4]
    norm_num
  have h20 : rollingMeanLast 20 closes = none := by
    simp only [rollingMeanLast, h4]
    norm_num
  have h50 : rollingMeanLast 50 closes = none := by
    simp only [rollingMeanLast, h4]
    norm_num
  refine ⟨{ moving_average_5 := none, moving_average_20 := none,
            moving_average_50 := none, trend_direction := Trend.neutral,
            current_price := closes.getLastD 0 }, ?_, rfl, rfl, ?_, ?_⟩
  · simp [calculate_moving_averages, hne, h5, h20, h50, h4]
  · simp [technicalSignals, technicalDataOfMA, truthy]
  · simp [calculate_technical_score, technicalSignals, technicalDataOfMA, truthy,
      clampSym]

/-- Witness for C3: the length hypothesis holds for a concrete 4-close
history, and the theorem applies to it. -/
theorem claim_C3_witness :
    ([1, 11/10, 6/5, (13:ℚ)/10] : List ℚ).length = 4 ∧
    (∃ ma : MovingAverages,
      calculate_moving_averages [1, 11/10, 6/5, (13:ℚ)/10] = some ma ∧
      ma.moving_average_5 = none ∧
      ma.trend_direction = Trend.neutral ∧
      technicalSignals (technicalDataOfMA ma 1) = (0, 1) ∧
      calculate_technical_score (technicalDataOfMA ma 1) = 0) :=
  ⟨rfl, claim_C3 [1, 11/10, 6/5, (13:ℚ)/10] 1 rfl⟩

/-- Counterexample to C3 as stated: on the concrete 4-close history
1.0, 1.1, 1.2, 1.3 the calculator returns `trend_direction = neutral`
(the claim says unknown), and the signal count for the resulting snapshot
is 1, not 0 (the trend signal is counted even though it contributes
nothing). -/
theorem claim_C3_counterexample :
    calculate_moving_averages [1, 11/10, 6/5, 13/10] =
      some ⟨none, none, none, Trend.neutral, 13/10⟩ ∧
    Trend.neutral ≠ Trend.unknown ∧
    (technicalSignals (technicalDataOfMA ⟨none, none, none, Trend.neutral, 13/10⟩ 1)).2
      = 1 ∧ (1 : ℕ) ≠ 0 := by
  refine ⟨?_, by decide, ?_, by decide⟩
  · norm_num [calculate_moving_averages, rollingMeanLast]
  · norm_num [technicalSignals, technicalDataOfMA, truthy]

/-- **C4 (amended).** `update_strategy_weights` succeeds exactly when the
weight sum is within 0.001 of 1.0 (individual weights are *not*
range-checked), `update_thresholds` succeeds exactly when
`buy_threshold > sell_threshold`; each rejection raises synchronously
leaving every field of the prior configuration unchanged, and each success
installs exactly the supplied values. -/
theorem claim_C4 :
    (∀ (cfg : StrategyConfig) (t s e : ℚ),
      ((update_strategy_weights cfg t s e).2 = none ↔ |t + s + e - 1| ≤ 1/1000) ∧
      ((update_strategy_weights cfg t s e).2 ≠ none →
        (update_strategy_weights cfg t s e).1 = cfg) ∧
      ((update_strategy_weights cfg t s e).2 = none →
        (update_strategy_weights cfg t s e).1 =
          { cfg with technical := t, sentiment := s, events := e })) ∧
    (∀ (cfg : StrategyConfig) (b s : ℚ),
      ((update_thresholds cfg b s).2 = none ↔ s < b) ∧
      ((update_thresholds cfg b s).2 ≠ none → (update_thresholds cfg b s).1 = cfg) ∧
      ((update_thresholds cfg b s).2 = none →
        (update_thresholds cfg b s).1 =
          { cfg with buy_threshold := b, sell_threshold := s })) := by
  constructor
  · intro cfg t s e
    unfold update_strategy_weights
    dsimp only
    split_ifs with h
    · refine ⟨?_, fun _ => rfl, fun hc => absurd hc not_false⟩
      exact iff_of_false not_false (not_le.mpr h)
    · push_neg at h
      exact ⟨iff_of_true rfl h, fun hc => absurd rfl hc, fun _ => rfl⟩
  · intro cfg b s
    unfold update_thresholds
    split_ifs with h
    · refine ⟨?_, fun _ => rfl, fun hc => absurd hc not_false⟩
      exact iff_of_false not_false (not_lt.mpr h)
    · exact ⟨iff_of_true rfl (not_le.mp h), fun hc => absurd rfl hc, fun _ => rfl⟩

/-- Witness for C4: weights (0,0,0) and thresholds (0,0) are rejected and
the initial configuration is observably unchanged. -/
theorem claim_C4_witness :
    (update_strategy_weights initConfig 0 0 0).2 ≠ none ∧
    (update_strategy_weights initConfig 0 0 0).1 = initConfig ∧
    (update_thresholds initConfig 0 0).2 ≠ none ∧
    (update_thresholds initConfig 0 0).1 = initConfig := by
  have h1 : (update_strategy_weights initConfig 0 0 0).2 ≠ none := by
    rw [ne_eq, (claim_C4.1 initConfig 0 0 0).1]
    norm_num [abs_le]
  have h2 : (update_thresholds initConfig 0 0).2 ≠ none := by
    rw [ne_eq, (claim_C4.2 initConfig 0 0).1]
    norm_num
  exact ⟨h1, (claim_C4.1 initConfig 0 0 0).2.1 h1, h2,
    (claim_C4.2 initConfig 0 0).2.1 h2⟩

/-- Counterexample to C4 as stated: the weight update accepts
(2, -0.5, -0.5) because only the sum is validated, although the first
weight is not in [0, 1] — so "succeeds exactly when each weight is in
[0,1] and the sum is ≈ 1" is false. -/
theorem claim_C4_counterexample :
    (update_strategy_weights initConfig 2 (-(1/2)) (-(1/2))).2 = none ∧
    ¬ ((2 : ℚ) ≤ 1) := by
  constructor
  · norm_num [update_strategy_weights]
  · norm_num

/-- **C5 (amended).** For every triple of factor scores, the confidence is
base × (0.5 + 0.5 × mean of the three absolute scores), clamped to [0,1],
with each score classified positive (> 0.1) / negative (< -0.1) / neutral
and the base chosen as the claim describes; in particular the scores
(0.25, 0.6, 0.2) are *all three* positive, so the base is
0.8 + 0.1×(3-2) = 0.9 and the confidence is 0.9 × 0.675 = 0.6075 (not
0.8 × 0.675 = 0.54). -/
theorem claim_C5 :
    (∀ t s e : ℚ,
      calculate_confidence t s e =
        (let pos := [t, s, e].countP (fun x => decide (x > 1/10))
         let neg := [t, s, e].countP (fun x => decide (x < -(1/10)))
         let neu := [t, s, e].countP (fun x => decide (-(1/10) ≤ x ∧ x ≤ 1/10))
         let base : ℚ :=
           if pos ≥ 2 ∧ neg = 0 then 4/5 + ((pos : ℚ) - 2) * (1/10)
           else if neg ≥ 2 ∧ pos = 0 then 4/5 + ((neg : ℚ) - 2) * (1/10)
           else if neu ≥ 2 then 3/5 else 1/2
         max 0 (min 1 (base * (1/2 + (|t| + |s| + |e|) / 3 * (1/2)))))) ∧
    calculate_confidence (1/4) (3/5) (1/5) = 243/400 := by
  constructor
  · intro t s e
    rfl
  · have h1 : |(1 : ℚ)/4| = 1/4 := abs_of_pos (by norm_num)
    have h2 : |(3 : ℚ)/5| = 3/5 := abs_of_pos (by norm_num)
    have h3 : |(1 : ℚ)/5| = 1/5 := abs_of_pos (by norm_num)
    norm_num [calculate_confidence, clampUnit, List.countP_cons, List.countP_nil,
      h1, h2, h3]

/-- Counterexample to C5 as stated: the claim's worked example asserts
confidence 0.54 for scores (0.25, 0.6, 0.2), but the code yields 0.6075
(all three scores exceed 0.1, so the base is 0.9, not 0.8). -/
theorem claim_C5_counterexample :
    calculate_confidence (1/4) (3/5) (1/5) ≠ 27/50 := by
  have h1 : |(1 : ℚ)/4| = 1/4 := abs_of_pos (by norm_num)
  have h2 : |(3 : ℚ)/5| = 3/5 := abs_of_pos (by norm_num)
  have h3 : |(1 : ℚ)/5| = 1/5 := abs_of_pos (by norm_num)
  have hval : calculate_confidence (1/4) (3/5) (1/5) = 243/400 := by
    norm_num [calculate_confidence, clampUnit, List.countP_cons, List.countP_nil,
      h1, h2, h3]
  rw [hval]
  norm_num

/-- **C6.** Recommendation synthesis is deterministic: two invocations of
`generate_recommendation` on equal configurations, currency pairs,
technical and sentiment snapshots and rates return equal results in every
field, the justification text included. -/
theorem claim_C6 (cfga cfgb : StrategyConfig) (pa pb : String)
    (tda tdb : TechnicalData) (sda sdb : SentimentData) (ra rb : ℚ)
    (hcfg : cfga = cfgb) (hp : pa = pb) (htd : tda = tdb) (hsd : sda = sdb)
    (hr : ra = rb) :
    generate_recommendation cfga pa tda sda ra
      = generate_recommendation cfgb pb tdb sdb rb ∧
    (generate_recommendation cfga pa tda sda ra).justification
      = (generate_recommendation cfgb pb tdb sdb rb).justification := by
  subst hcfg
  subst hp
  subst htd
  subst hsd
  subst hr
  exact ⟨rfl, rfl⟩

/-- Witness for C6: the equal-input hypotheses hold trivially for a
concrete invocation, and the theorem applies there. -/
theorem claim_C6_witness :
    initConfig = initConfig ∧
    generate_recommendation initConfig "EUR/USD"
        ⟨1, none, none, none, some Trend.upward⟩ ⟨1/2, 4, ["growth"], []⟩ 1
      = generate_recommendation initConfig "EUR/USD"
        ⟨1, none, none, none, some Trend.upward⟩ ⟨1/2, 4, ["growth"], []⟩ 1 :=
  ⟨rfl,
   (claim_C6 initConfig initConfig "EUR/USD" "EUR/USD"
     ⟨1, none, none, none, some Trend.upward⟩ ⟨1, none, none, none, some Trend.upward⟩
     ⟨1/2, 4, ["growth"], []⟩ ⟨1/2, 4, ["growth"], []⟩ 1 1
     rfl rfl rfl rfl rfl).1⟩

/-- **C7 (amended).** The moving-average calculator needs at least 1 close
to report anything: on a non-empty history it returns an indicator record,
but on an empty input series it returns the empty result (`return {}` in
the source, `none` here) normally — it does not raise; no
`InsufficientDataError` exists anywhere in the repository. -/
theorem claim_C7 :
    calculate_moving_averages ([] : List ℚ) = none ∧
    ∀ closes : List ℚ, closes ≠ [] →
      (calculate_moving_averages closes).isSome = true := by
  constructor
  · rfl
  · intro closes h
    cases closes with
    | nil => exact absurd rfl h
    | cons a t => simp [calculate_moving_averages]

/-- Witness for C7: the non-emptiness hypothesis holds for a one-close
history and the theorem applies there. -/
theorem claim_C7_witness :
    ([(1 : ℚ)] ≠ []) ∧ (calculate_moving_averages [(1 : ℚ)]).isSome = true :=
  ⟨by simp, claim_C7.2 [1] (by simp)⟩

/-- Counterexample to C7 as stated: called on the empty series the
calculator returns a value (the empty result) instead of failing — the
source line is `if not time_series_data: return {}`, and no
`InsufficientDataError` is defined or raised anywhere in the code. -/
theorem claim_C7_counterexample :
    calculate_moving_averages ([] : List ℚ) = none := rfl

/-- **C8 (amended).** The closing reasoning paragraph is a function of the
recommendation label *and the sign of the weighted sentiment score*: for
HOLD it depends on the label alone, and for any label two sentiment scores
agreeing in sign (positive / negative / zero) produce the identical
paragraph (the BUY branch appends an extra line exactly when
`sentiment_score > 0`, the SELL branch exactly when it is negative). -/
theorem claim_C8 (r : RecommendationType) (sa sb : ℚ) :
    (r = .HOLD → finalReasoning r sa = finalReasoning r sb) ∧
    ((sa > 0 ↔ sb > 0) → (sa < 0 ↔ sb < 0) →
      finalReasoning r sa = finalReasoning r sb) := by
  constructor
  · intro h
    subst h
    rfl
  · intro hpos hneg
    cases r with
    | BUY =>
      by_cases ha : sa > 0
      · have hb := hpos.mp ha
        simp [finalReasoning, ha, hb]
      · have hb : ¬ sb > 0 := fun hb => ha (hpos.mpr hb)
        simp [finalReasoning, ha, hb]
    | HOLD => rfl
    | SELL =>
      by_cases ha : sa < 0
      · have hb := hneg.mp ha
        simp [finalReasoning, ha, hb]
      · have hb : ¬ sb < 0 := fun hb => ha (hneg.mpr hb)
        simp [finalReasoning, ha, hb]

/-- Witness for C8: the sign-agreement hypotheses hold for the BUY label
with sentiment scores 1 and 2, and the theorem applies there. -/
theorem claim_C8_witness :
    (((1 : ℚ) > 0 ↔ (2 : ℚ) > 0) ∧ ((1 : ℚ) < 0 ↔ (2 : ℚ) < 0)) ∧
    finalReasoning .BUY 1 = finalReasoning .BUY 2 :=
  ⟨⟨by norm_num, by norm_num⟩,
   (claim_C8 .BUY 1 2).2 (by norm_num) (by norm_num)⟩

/-- Counterexample to C8 as stated: with thresholds validly updated to
(0.3, -0.6), two syntheses both classify as BUY — one with weighted
sentiment 1 (raw sentiment 1 over 5 articles), one with weighted sentiment
0 (raw sentiment 0, five "growth" economic events) — yet their closing
reasoning paragraphs differ: the first carries the extra line "Positive
market sentiment supports buying", the second does not. -/
theorem claim_C8_counterexample :
    (update_thresholds initConfig (3/10) (-(3/5))).2 = none ∧
    (generate_recommendation (update_thresholds initConfig (3/10) (-(3/5))).1 "EUR/USD"
        ⟨1, none, none, none, some Trend.upward⟩ ⟨1, 5, [], []⟩ 1).recommendation
      = .BUY ∧
    (generate_recommendation (update_thresholds initConfig (3/10) (-(3/5))).1 "EUR/USD"
        ⟨1, none, none, none, some Trend.upward⟩
        ⟨0, 5, ["growth", "growth", "growth", "growth", "growth"], []⟩ 1).recommendation
      = .BUY ∧
    finalReasoning
        (generate_recommendation (update_thresholds initConfig (3/10) (-(3/5))).1 "EUR/USD"
          ⟨1, none, none, none, some Trend.upward⟩ ⟨1, 5, [], []⟩ 1).recommendation
        (generate_recommendation (update_thresholds initConfig (3/10) (-(3/5))).1 "EUR/USD"
          ⟨1, none, none, none, some Trend.upward⟩ ⟨1, 5, [], []⟩ 1).sentiment_score
      ≠ finalReasoning
        (generate_recommendation (update_thresholds initConfig (3/10) (-(3/5))).1 "EUR/USD"
          ⟨1, none, none, none, some Trend.upward⟩
          ⟨0, 5, ["growth", "growth", "growth", "growth", "growth"], []⟩ 1).recommendation
        (generate_recommendation (update_thresholds initConfig (3/10) (-(3/5))).1 "EUR/USD"
          ⟨1, none, none, none, some Trend.upward⟩
          ⟨0, 5, ["growth", "growth", "growth", "growth", "growth"], []⟩ 1).sentiment_score := by
  have hcfg : update_thresholds initConfig (3/10) (-(3/5)) =
      ({ technical := 2/5, sentiment := 3/10, events := 3/10,
         buy_threshold := 3/10, sell_threshold := -(3/5) }, none) := by
    norm_num [update_thresholds, initConfig]
  have ht : calculate_technical_score ⟨1, none, none, none, some Trend.upward⟩ = 3/10 := by
    norm_num [calculate_technical_score, technicalSignals, truthy, clampSym]
  have hsA : calculate_sentiment_score ⟨1, 5, [], []⟩ = 1 := by
    norm_num [calculate_sentiment_score, clampSym]
  have heA : calculate_event_score ⟨1, 5, [], []⟩ = 0 := by
    norm_num [calculate_event_score, clampSym]
  have hsB : calculate_sentiment_score
      ⟨0, 5, ["growth", "growth", "growth", "growth", "growth"], []⟩ = 0 := by
    norm_num [calculate_sentiment_score, clampSym]
  have hg : anyKeyword "growth" econKwPos = true := by decide
  have heB : calculate_event_score
      ⟨0, 5, ["growth", "growth", "growth", "growth", "growth"], []⟩ = 1 := by
    norm_num [calculate_event_score, hg, clampSym]
  have hrecA : (generate_recommendation (update_thresholds initConfig (3/10) (-(3/5))).1
      "EUR/USD" ⟨1, none, none, none, some Trend.upward⟩ ⟨1, 5, [], []⟩ 1).recommendation
      = .BUY := by
    rw [hcfg, generate_recommendation_fields]
    norm_num [ht, hsA, heA, determine_recommendation]
  have hrecB : (generate_recommendation (update_thresholds initConfig (3/10) (-(3/5))).1
      "EUR/USD" ⟨1, none, none, none, some Trend.upward⟩
      ⟨0, 5, ["growth", "growth", "growth", "growth", "growth"], []⟩ 1).recommendation
      = .BUY := by
    rw [hcfg, generate_recommendation_fields]
    norm_num [ht, hsB, heB, determine_recommendation]
  have hsentA : (generate_recommendation (update_thresholds initConfig (3/10) (-(3/5))).1
      "EUR/USD" ⟨1, none, none, none, some Trend.upward⟩ ⟨1, 5, [], []⟩ 1).sentiment_score
      = 1 := by
    rw [hcfg, generate_recommendation_fields]
    norm_num [hsA]
  have hsentB : (generate_recommendation (update_thresholds initConfig (3/10) (-(3/5))).1
      "EUR/USD" ⟨1, none, none, none, some Trend.upward⟩
      ⟨0, 5, ["growth", "growth", "growth", "growth", "growth"], []⟩ 1).sentiment_score
      = 0 := by
    rw [hcfg, generate_recommendation_fields]
    norm_num [hsB]
  refine ⟨by rw [hcfg], hrecA, hrecB, ?_⟩
  rw [hrecA, hrecB, hsentA, hsentB]
  have h1 : (1 : ℚ) > 0 := by norm_num
  have h0 : ¬ ((0 : ℚ) > 0) := by norm_num
  simp [finalReasoning, h1, h0]

theorem confProduct_bounds {b m : ℚ} (hb : 1/2 ≤ b ∧ b ≤ 9/10)
    (hm : 1/2 ≤ m ∧ m ≤ 1) :
    1/4 ≤ clampUnit (b * m) ∧ clampUnit (b * m) ≤ 9/10 := by
  obtain ⟨hb1, hb2⟩ := hb
  obtain ⟨hm1, hm2⟩ := hm
  have h1 : 1/4 ≤ b * m := by nlinarith
  have h2 : b * m ≤ 9/10 := by nlinarith
  rw [clampUnit_eq_self (by linarith) (by linarith)]
  exact ⟨h1, h2⟩

theorem baseFormula_bounds (p n u : ℕ) (hp : p ≤ 3) (hn : n ≤ 3) :
    1/2 ≤ (if p ≥ 2 ∧ n = 0 then (4:ℚ)/5 + ((p : ℚ) - 2) * (1/10)
           else if n ≥ 2 ∧ p = 0 then 4/5 + ((n : ℚ) - 2) * (1/10)
           else if u ≥ 2 then 3/5 else 1/2) ∧
    (if p ≥ 2 ∧ n = 0 then (4:ℚ)/5 + ((p : ℚ) - 2) * (1/10)
     else if n ≥ 2 ∧ p = 0 then 4/5 + ((n : ℚ) - 2) * (1/10)
     else if u ≥ 2 then 3/5 else 1/2) ≤ 9/10 := by
  split_ifs with h1 h2 h3
  · obtain ⟨hp2, -⟩ := h1
    have c1 : (2 : ℚ) ≤ (p : ℚ) := by exact_mod_cast hp2
    have c2 : (p : ℚ) ≤ 3 := by exact_mod_cast hp
    constructor <;> nlinarith
  · obtain ⟨hn2, -⟩ := h2
    have c1 : (2 : ℚ) ≤ (n : ℚ) := by exact_mod_cast hn2
    have c2 : (n : ℚ) ≤ 3 := by exact_mod_cast hn
    constructor <;> nlinarith
  · constructor <;> norm_num
  · constructor <;> norm_num

/-- **C9.** For factor scores each in [-1, 1], the confidence lies in the
tighter interval [0.25, 0.9]: the base is at least 0.5 and at most 0.9 and
the magnitude multiplier lies in [0.5, 1], so values below 0.25 or above
0.9 are unreachable. -/
theorem claim_C9 (t s e : ℚ) (ht : |t| ≤ 1) (hs : |s| ≤ 1) (he : |e| ≤ 1) :
    1/4 ≤ calculate_confidence t s e ∧ calculate_confidence t s e ≤ 9/10 := by
  unfold calculate_confidence
  dsimp only
  have hP : [t, s, e].countP (fun score => decide (score > 1/10)) ≤ 3 := by
    have h := List.countP_le_length (fun score => decide (score > 1/10)) (l := [t, s, e])
    simpa using h
  have hN : [t, s, e].countP (fun score => decide (score < -(1/10))) ≤ 3 := by
    have h := List.countP_le_length (fun score => decide (score < -(1/10))) (l := [t, s, e])
    simpa using h
  have hbase := baseFormula_bounds
    ([t, s, e].countP (fun score => decide (score > 1/10)))
    ([t, s, e].countP (fun score => decide (score < -(1/10))))
    ([t, s, e].countP (fun score => decide (-(1/10) ≤ score ∧ score ≤ 1/10))) hP hN
  have ha1 : 0 ≤ |t| := abs_nonneg t
  have ha2 : 0 ≤ |s| := abs_nonneg s
  have ha3 : 0 ≤ |e| := abs_nonneg e
  have hm : 1/2 ≤ 1/2 + (|t| + |s| + |e|) / 3 * (1/2) ∧
      1/2 + (|t| + |s| + |e|) / 3 * (1/2) ≤ 1 := by
    constructor <;> nlinarith
  exact confProduct_bounds hbase hm

/-- Witness for C9: the hypotheses hold at scores (0, 0, 0), and the bounds
apply there. -/
theorem claim_C9_witness :
    |(0 : ℚ)| ≤ 1 ∧
    (1/4 ≤ calculate_confidence 0 0 0 ∧ calculate_confidence 0 0 0 ≤ 9/10) :=
  ⟨by simp, claim_C9 0 0 0 (by simp) (by simp) (by simp)⟩

/-- **C10.** The signal-count divisor of the technical score is at least 1
for every input (the trend-direction signal increments it unconditionally,
even for an all-absent snapshot, whose trend defaults to neutral, or for an
explicit unknown trend), so the normalisation never divides by zero and the
all-absent snapshot scores 0.0 as `0.0 / 1`, not via a zero-signal special
case. -/
theorem claim_C10 :
    (∀ td : TechnicalData, 1 ≤ (technicalSignals td).2) ∧
    technicalSignals ⟨0, none, none, none, none⟩ = (0, 1) ∧
    technicalSignals ⟨0, none, none, none, some Trend.unknown⟩ = (0, 1) ∧
    calculate_technical_score ⟨0, none, none, none, none⟩ = clampSym (0 / (1 : ℚ)) := by
  refine ⟨?_, ?_, ?_, ?_⟩
  · intro td
    unfold technicalSignals
    dsimp only
    exact Nat.succ_le_succ (Nat.zero_le _)
  · simp [technicalSignals, truthy, Prod.ext_iff]
  · simp [technicalSignals, truthy, Prod.ext_iff]
  · simp [calculate_technical_score, technicalSignals, truthy, clampSym]
